import Mathlib

/-!
# Bootstrap script of the admin page (`static/index.js`)

The script is sixteen lines of glue: three `require` calls, one mount of the
compiled application into `div#main`, one subscription of `displayQR` to the
outbound port `portQr`, and the callback `displayQR` itself.

The embedding passes an explicit `World` through every statement.  Each call the
script makes on a collaborator appends one `Event` to `World.trace`, so that
"exactly once", "in this order" and "before" are statements about a list.
A JavaScript exception is an `Option Err` (or `Except Err`) next to the world
the statement left behind: the script has no `try`, so the first exception ends
the run and is handed to the caller.

Collaborators that the script only calls (the bundler's `require`, the
third-party `QRCode` constructor, the embed factory on a present container) are
fields of `Host`, and every theorem quantifies over all hosts.
-/

namespace LamassuAdmin

/-- Exceptions are identified by their message. -/
abbrev Err := String

/-- Reference to a DOM element: its position in tree order. -/
abbrev Handle := Nat

/-- DOM element as far as the script can tell elements apart: its identifier
(the `id` attribute; the empty string when the element has none, since an empty
`id` attribute names nothing) and everything rendered inside the element. -/
structure Element where
  id : String
  content : String
  deriving DecidableEq, Repr

/-- The document: its elements in tree order. -/
abbrev Document := List Element

/-- QR request `rec` delivered on the port: the fields `rec.id` and
`rec.content` read by `displayQR`. -/
structure QRRequest where
  id : String
  content : String
  deriving DecidableEq, Repr

/-- Functions of the script that can be handed out as callbacks; the script
declares a single function. -/
inductive Callback where
  | displayQR
  deriving DecidableEq, Repr

/-- Application instance returned by the embed factory: the names of the
outbound ports found under `app.ports`. -/
structure Instance where
  ports : List String
  deriving DecidableEq, Repr

/-- One call of the script on a collaborator. -/
inductive Event where
  | loaded (module : String)
  | lookup (id : String) (result : Option Handle)
  | embedCall (target : Option Handle)
  | subscribed (port : String) (callback : Callback)
  | logged (line : String)
  | qrConstructed (target : Option Handle) (data : String)
  deriving DecidableEq, Repr

/-- Collaborators of the script, none of which is defined in `static/index.js`. -/
structure Host where
  /-- The bundler's `require(module)`: `some e` when evaluating the module throws `e`. -/
  load : String → Option Err
  /-- `Elm.Main.embed(node)` for a node that exists: the document it leaves and
  either the instance or the exception it throws. -/
  embedAt : Handle → Document → Document × Except Err Instance
  /-- The exception raised by the embed factory when it is handed no node. -/
  mountError : Err
  /-- The constructor `new QRCode(target, data)`: the document it leaves and the
  exception it throws, if any. -/
  newQRCode : Option Handle → String → Document → Document × Option Err

/-- Everything the script can read or change. -/
structure World where
  document : Document
  /-- The module-level `const app`; `none` until its initialiser has returned. -/
  app : Option Instance
  /-- Callbacks registered on outbound ports, in registration order. -/
  subscriptions : List (String × Callback)
  /-- Calls made so far, oldest first. -/
  trace : List Event
  /-- Exceptions that reached the page's default error handler. -/
  uncaught : List Err

/-- Page before the script has run. -/
def World.fresh (doc : Document) : World :=
  { document := doc, app := none, subscriptions := [], trace := [], uncaught := [] }

/-- Append one event to the trace. -/
def World.record (w : World) (ev : Event) : World :=
  { w with trace := w.trace ++ [ev] }

/-- Lines written to the debug/log channel, oldest first. -/
def console (trace : List Event) : List String :=
  trace.filterMap fun ev => match ev with
    | .logged line => some line
    | _ => none

/-- `document.getElementById(id)` on the element list: the first element in
tree order whose identifier is the one asked for, or nothing.  No element has
the empty identifier, so asking for it gives nothing. -/
def findId (doc : Document) (id : String) : Option Handle :=
  if id = "" then none else doc.findIdx? (fun e => e.id == id)

/-- `document.getElementById(id)` as a step of the script. -/
def getElementById (id : String) (w : World) : Option Handle × World :=
  let r := findId w.document id
  (r, w.record (.lookup id r))

/-- `console.log(line)`. -/
def consoleLog (line : String) (w : World) : World :=
  w.record (.logged line)

/-- `new QRCode(target, data)`. -/
def newQRCode (h : Host) (target : Option Handle) (data : String) (w : World) :
    World × Option Err :=
  let w := w.record (.qrConstructed target data)
  let r := h.newQRCode target data w.document
  ({ w with document := r.1 }, r.2)

/-- The callback of the script:
```
function displayQR (rec) {
  console.log('DEBUG100')
  new QRCode(document.getElementById(rec.id), rec.content)
}
```
-/
def displayQR (h : Host) (rec : QRRequest) (w : World) : World × Option Err :=
  let w := consoleLog "DEBUG100" w
  let (target, w) := getElementById rec.id w
  newQRCode h target rec.content w

/-- `require(module)`. -/
def require (h : Host) (module : String) (w : World) : World × Option Err :=
  match h.load module with
  | some e => (w, some e)
  | none => (w.record (.loaded module), none)

/-- Modelled from the spec: the embed factory of the compiled application
(`../src/Main`, which is not among the sources).  "If the container is absent,
the lookup yields an empty/absent result and mounting fails"; on a container
that exists the factory is the host's `embedAt`. -/
def embed (h : Host) (target : Option Handle) (w : World) : World × Except Err Instance :=
  let w := w.record (.embedCall target)
  match target with
  | none => (w, .error h.mountError)
  | some t =>
    let r := h.embedAt t w.document
    ({ w with document := r.1 }, r.2)

/-- `app.ports.<port>.subscribe(callback)`: reading `.subscribe` of a port the
instance does not have throws; otherwise the callback is registered. -/
def subscribe (app : Instance) (port : String) (cb : Callback) (w : World) :
    World × Option Err :=
  if port ∈ app.ports then
    ({ w.record (.subscribed port cb) with subscriptions := w.subscriptions ++ [(port, cb)] }, none)
  else
    (w, some "TypeError")

/-- The module top level, statement by statement:
```
require('./css/index.scss')
require('script!qrcodejs')
const Elm = require('../src/Main')
const app = Elm.Main.embed(document.getElementById('main'))
app.ports.portQr.subscribe(displayQR)
```
-/
def main (h : Host) (w : World) : World × Option Err :=
  match require h "./css/index.scss" w with
  | (w, some e) => (w, some e)
  | (w, none) =>
  match require h "script!qrcodejs" w with
  | (w, some e) => (w, some e)
  | (w, none) =>
  match require h "../src/Main" w with
  | (w, some e) => (w, some e)
  | (w, none) =>
  let (node, w) := getElementById "main" w
  match embed h node w with
  | (w, .error e) => (w, some e)
  | (w, .ok app) =>
  let w := { w with app := some app }
  subscribe app "portQr" .displayQR w

/-- Call one callback of the script with the emitted value. -/
def invoke (h : Host) (cb : Callback) (rec : QRRequest) (w : World) : World × Option Err :=
  match cb with
  | .displayQR => displayQR h rec w

/-- Modelled from the spec: one step of the port dispatch of the embedded
application (`../src/Main`, which is not among the sources).  The emitted value
is handed to a subscriber if it listens on the port; the callback runs to
completion, and an exception it throws goes to the page's default error
handler. -/
def dispatch (h : Host) (port : String) (rec : QRRequest) (w : World)
    (sub : String × Callback) : World :=
  if sub.1 = port then
    match invoke h sub.2 rec w with
    | (w, none) => w
    | (w, some e) => { w with uncaught := w.uncaught ++ [e] }
  else w

/-- Modelled from the spec: the port dispatch of the embedded application
(`../src/Main`, which is not among the sources).  "Each emission triggers
exactly one callback invocation" for each callback subscribed to the port, and
"every failure surfaces immediately to the host page's default error handling":
an exception thrown by a callback is reported and the dispatch goes on. -/
def emit (h : Host) (port : String) (rec : QRRequest) (w : World) : World :=
  w.subscriptions.foldl (dispatch h port rec) w

/-- Modelled from the spec: a finite sequence of emissions on one port, each
dispatched to completion before the next. -/
def emitAll (h : Host) (port : String) (recs : List QRRequest) (w : World) : World :=
  recs.foldl (fun w rec => emit h port rec w) w

/-- Calls of the QR constructor in a trace, oldest first: target and data. -/
def qrCalls (trace : List Event) : List (Option Handle × String) :=
  trace.filterMap fun ev => match ev with
    | .qrConstructed target data => some (target, data)
    | _ => none

/-- The two states of the mount. -/
inductive MountState where
  | Unmounted
  | Mounted
  deriving DecidableEq, Repr

/-- The mount state of a page: `Mounted` once `const app` is bound. -/
def World.mountState (w : World) : MountState :=
  match w.app with
  | none => .Unmounted
  | some _ => .Mounted

/-- The events of one `displayQR(rec)` whose lookup gave `target`. -/
def invocationEvents (rec : QRRequest) (target : Option Handle) : List Event :=
  [.logged "DEBUG100", .lookup rec.id target, .qrConstructed target rec.content]

/-- An example collaborator set, used to instantiate the theorems below: every
module loads, the factory mounts into the node it is given and exposes `portQr`,
and the QR constructor writes into its target and throws when it has none. -/
def exampleHost : Host where
  load := fun _ => none
  embedAt := fun t doc =>
    match doc[t]? with
    | none => (doc, .error "TypeError")
    | some e => (doc.set t { e with content := "app" }, .ok { ports := ["portQr"] })
  mountError := "TypeError"
  newQRCode := fun target data doc =>
    match target with
    | none => (doc, some "TypeError")
    | some t =>
      match doc[t]? with
      | none => (doc, some "TypeError")
      | some e => (doc.set t { e with content := "qr:" ++ data }, none)

/-- An example page: the container and, beside it, one box for a QR code. -/
def exampleDocument : Document :=
  [{ id := "main", content := "" }, { id := "qr-box", content := "" }]

/-- The example page after the script has run with the example collaborators. -/
def exampleMounted : World where
  document := [{ id := "main", content := "app" }, { id := "qr-box", content := "" }]
  app := some { ports := ["portQr"] }
  subscriptions := [("portQr", .displayQR)]
  trace := [.loaded "./css/index.scss", .loaded "script!qrcodejs", .loaded "../src/Main",
    .lookup "main" (some 0), .embedCall (some 0), .subscribed "portQr" .displayQR]
  uncaught := []

/-- What a QR constructor draws for its data: nothing for the empty string. -/
def drawn (data : String) : String :=
  if data = "" then "" else "qr:" ++ data

/-- A set of collaborators whose QR constructor keeps what its element already
holds and draws after it, and throws when it is handed no element. -/
def appendingHost : Host where
  load := exampleHost.load
  embedAt := exampleHost.embedAt
  mountError := exampleHost.mountError
  newQRCode := fun target data doc =>
    match target with
    | none => (doc, some "TypeError")
    | some t =>
      match doc[t]? with
      | none => (doc, some "TypeError")
      | some e => (doc.set t { e with content := e.content ++ drawn data }, none)

/-- A page whose box for the QR code sits inside the container: what is rendered
inside `main` shows the box and what the box holds. -/
def nestedDocument : Document :=
  [{ id := "main", content := "qr-box[]" }, { id := "qr-box", content := "" }]

/-- A set of collaborators for pages laid out like `nestedDocument`, where the
first element is the container and every other element sits inside it: the QR
constructor draws into its element, which also changes what is rendered inside
the container; handed no element it throws and changes nothing. -/
def nestingHost : Host where
  load := exampleHost.load
  embedAt := exampleHost.embedAt
  mountError := exampleHost.mountError
  newQRCode := fun target data doc =>
    match target with
    | none => (doc, some "TypeError")
    | some t =>
      match doc[t]?, doc[0]? with
      | some e, some container =>
        if t = 0 then (doc.set 0 { e with content := drawn data }, none)
        else
          ((doc.set t { e with content := drawn data }).set 0
            { container with content := e.id ++ "[" ++ drawn data ++ "]" }, none)
      | _, _ => (doc, some "TypeError")

/-- A set of collaborators whose QR constructor, handed no element, draws into
the first element of the page before it reports the failure. -/
def fallbackHost : Host where
  load := exampleHost.load
  embedAt := exampleHost.embedAt
  mountError := exampleHost.mountError
  newQRCode := fun target data doc =>
    match target with
    | none =>
      match doc[0]? with
      | none => (doc, some "TypeError")
      | some e => (doc.set 0 { e with content := drawn data }, some "TypeError")
    | some t =>
      match doc[t]? with
      | none => (doc, some "TypeError")
      | some e => (doc.set t { e with content := drawn data }, none)

/-! ## Lookup -/

theorem findId_eq_some {doc : Document} {id : String} {t : Handle}
    (hfind : findId doc id = some t) :
    ∃ e, doc[t]? = some e ∧ e.id = id ∧ id ≠ "" ∧
      ∀ j e', j < t → doc[j]? = some e' → e'.id ≠ id := by
  unfold findId at hfind
  by_cases hempty : id = ""
  · simp [hempty] at hfind
  · simp only [hempty, if_false] at hfind
    obtain ⟨hlt, hp, hfirst⟩ := List.findIdx?_eq_some_iff_getElem.mp hfind
    refine ⟨doc[t], List.getElem?_eq_getElem hlt, by simpa using hp, hempty, ?_⟩
    intro j e' hj hje'
    have hjl : j < doc.length := Nat.lt_trans hj hlt
    have hne := hfirst j hj
    rw [List.getElem?_eq_getElem hjl] at hje'
    cases hje'
    simpa using hne

theorem findId_eq_none {doc : Document} {id : String} :
    findId doc id = none ↔ id = "" ∨ ∀ e ∈ doc, e.id ≠ id := by
  unfold findId
  by_cases hempty : id = ""
  · simp [hempty]
  · simp [hempty]

theorem findId_of_absent {doc : Document} {id : String}
    (habsent : ∀ e ∈ doc, e.id ≠ id) : findId doc id = none :=
  findId_eq_none.mpr (Or.inr habsent)

theorem findId_isSome_of_mem {doc : Document} {id : String}
    (hid : id ≠ "") (hex : ∃ e ∈ doc, e.id = id) : ∃ t, findId doc id = some t := by
  cases hf : findId doc id with
  | some t => exact ⟨t, rfl⟩
  | none =>
    obtain ⟨e, he, heq⟩ := hex
    rcases findId_eq_none.mp hf with hempty | habsent
    · exact absurd hempty hid
    · exact absurd heq (habsent e he)

/-! ## The callback -/

theorem displayQR_trace (h : Host) (rec : QRRequest) (w : World) :
    (displayQR h rec w).1.trace =
      w.trace ++ [Event.logged "DEBUG100", Event.lookup rec.id (findId w.document rec.id),
        Event.qrConstructed (findId w.document rec.id) rec.content] := by
  simp [displayQR, consoleLog, getElementById, newQRCode, World.record]

theorem displayQR_document (h : Host) (rec : QRRequest) (w : World) :
    (displayQR h rec w).1.document =
      (h.newQRCode (findId w.document rec.id) rec.content w.document).1 := by
  simp [displayQR, consoleLog, getElementById, newQRCode, World.record]

theorem displayQR_error (h : Host) (rec : QRRequest) (w : World) :
    (displayQR h rec w).2 =
      (h.newQRCode (findId w.document rec.id) rec.content w.document).2 := by
  simp [displayQR, consoleLog, getElementById, newQRCode, World.record]

theorem displayQR_app (h : Host) (rec : QRRequest) (w : World) :
    (displayQR h rec w).1.app = w.app := by
  simp [displayQR, consoleLog, getElementById, newQRCode, World.record]

theorem displayQR_subscriptions (h : Host) (rec : QRRequest) (w : World) :
    (displayQR h rec w).1.subscriptions = w.subscriptions := by
  simp [displayQR, consoleLog, getElementById, newQRCode, World.record]

/-! ## The bootstrap -/

theorem main_ok {h : Host} {doc : Document} {w : World}
    (hrun : main h (World.fresh doc) = (w, none)) :
    ∃ inst, (embed h (findId doc "main") (World.fresh doc)).2 = .ok inst ∧
      "portQr" ∈ inst.ports ∧
      w.app = some inst ∧
      w.subscriptions = [("portQr", Callback.displayQR)] ∧
      w.document = (embed h (findId doc "main") (World.fresh doc)).1.document ∧
      w.uncaught = [] ∧
      w.trace = [Event.loaded "./css/index.scss", Event.loaded "script!qrcodejs",
        Event.loaded "../src/Main", Event.lookup "main" (findId doc "main"),
        Event.embedCall (findId doc "main"), Event.subscribed "portQr" Callback.displayQR] := by
  unfold main at hrun
  simp only [require] at hrun
  cases hcss : h.load "./css/index.scss" with
  | some e => simp [hcss] at hrun
  | none =>
  cases hqr : h.load "script!qrcodejs" with
  | some e => simp [hcss, hqr] at hrun
  | none =>
  cases helm : h.load "../src/Main" with
  | some e => simp [hcss, hqr, helm] at hrun
  | none =>
  simp only [hcss, hqr, helm, getElementById] at hrun
  cases hnode : findId doc "main" with
  | none =>
    simp [embed, World.fresh, World.record, hnode] at hrun
  | some t =>
    cases hemb : (h.embedAt t doc).2 with
    | error e =>
      simp [embed, World.fresh, World.record, hnode, hemb] at hrun
    | ok inst =>
      by_cases hport : "portQr" ∈ inst.ports
      · simp [embed, World.fresh, World.record, hnode, hemb, subscribe, hport] at hrun
        subst hrun
        exact ⟨inst, by simp [embed, World.fresh, World.record, hemb], hport, rfl, rfl,
          by simp [embed, World.fresh, World.record], rfl, rfl⟩
      · simp [embed, World.fresh, World.record, hnode, hemb, subscribe, hport] at hrun

/-! ## Port emissions -/

theorem emit_single (h : Host) (rec : QRRequest) (w : World)
    (hsubs : w.subscriptions = [("portQr", Callback.displayQR)]) :
    (emit h "portQr" rec w).trace =
        w.trace ++ invocationEvents rec (findId w.document rec.id) ∧
      (emit h "portQr" rec w).subscriptions = w.subscriptions ∧
      (emit h "portQr" rec w).app = w.app := by
  have htr := displayQR_trace h rec w
  have hsu := displayQR_subscriptions h rec w
  have hap := displayQR_app h rec w
  simp only [emit, hsubs, List.foldl_cons, List.foldl_nil, dispatch, invoke, if_true]
  rw [← hsubs]
  cases hres : displayQR h rec w with
  | mk w' r =>
    rw [hres] at htr hsu hap
    cases r <;> simp_all [invocationEvents]

theorem emit_no_subscriber (h : Host) (port : String) (rec : QRRequest) (w : World)
    (hsubs : w.subscriptions = []) : emit h port rec w = w := by
  simp [emit, hsubs]

theorem emitAll_no_subscriber (h : Host) (port : String) (recs : List QRRequest) (w : World)
    (hsubs : w.subscriptions = []) : emitAll h port recs w = w := by
  induction recs with
  | nil => rfl
  | cons rec recs ih =>
    simp only [emitAll, List.foldl_cons] at ih ⊢
    rw [emit_no_subscriber h port rec w hsubs]
    exact ih

theorem emitAll_single (h : Host) (recs : List QRRequest) (w : World)
    (hsubs : w.subscriptions = [("portQr", Callback.displayQR)]) :
    ∃ targets : List (Option Handle), targets.length = recs.length ∧
      (emitAll h "portQr" recs w).trace =
        w.trace ++ (List.zipWith invocationEvents recs targets).flatten := by
  induction recs generalizing w with
  | nil => exact ⟨[], rfl, by simp [emitAll]⟩
  | cons rec recs ih =>
    obtain ⟨htr, hsu, _⟩ := emit_single h rec w hsubs
    obtain ⟨targets, hlen, hrest⟩ := ih (emit h "portQr" rec w) (hsu.trans hsubs)
    refine ⟨findId w.document rec.id :: targets, by simp [hlen], ?_⟩
    simp only [emitAll, List.foldl_cons] at hrest ⊢
    rw [hrest, htr]
    simp [List.append_assoc]

theorem qrCalls_invocations (recs : List QRRequest) (targets : List (Option Handle)) :
    qrCalls (List.zipWith invocationEvents recs targets).flatten =
      List.zipWith (fun (rec : QRRequest) (t : Option Handle) => (t, rec.content))
        recs targets := by
  induction recs generalizing targets with
  | nil => simp [qrCalls]
  | cons rec recs ih =>
    cases targets with
    | nil => simp [qrCalls]
    | cons t targets =>
      have ih' := ih targets
      simp only [qrCalls] at ih' ⊢
      simp [invocationEvents, List.filterMap_append, ih']

theorem displayQR_foldl_state (h : Host) (recs : List QRRequest) (w : World) :
    (recs.foldl (fun w rec => (displayQR h rec w).1) w).app = w.app ∧
      (recs.foldl (fun w rec => (displayQR h rec w).1) w).subscriptions = w.subscriptions := by
  induction recs generalizing w with
  | nil => exact ⟨rfl, rfl⟩
  | cons rec recs ih =>
    simp only [List.foldl_cons]
    obtain ⟨ha, hs⟩ := ih (displayQR h rec w).1
    exact ⟨ha.trans (displayQR_app h rec w), hs.trans (displayQR_subscriptions h rec w)⟩

theorem main_fail_or_loaded (h : Host) (doc : Document) :
    ((main h (World.fresh doc)).1.subscriptions = [] ∧
        ((main h (World.fresh doc)).1.trace = [] ∨
          (main h (World.fresh doc)).1.trace = [Event.loaded "./css/index.scss"])) ∨
      ∃ rest, (main h (World.fresh doc)).1.trace =
        Event.loaded "./css/index.scss" :: Event.loaded "script!qrcodejs" :: rest := by
  unfold main
  simp only [require]
  cases hcss : h.load "./css/index.scss" with
  | some e => left; simp [World.fresh]
  | none =>
  cases hqr : h.load "script!qrcodejs" with
  | some e => left; simp [World.fresh, World.record]
  | none =>
  right
  cases helm : h.load "../src/Main" with
  | some e => simp [World.fresh, World.record]
  | none =>
  simp only [getElementById]
  cases hnode : findId doc "main" with
  | none => simp [embed, World.fresh, World.record, hnode]
  | some t =>
    cases hemb : (h.embedAt t doc).2 with
    | error e => simp [embed, World.fresh, World.record, hnode, hemb]
    | ok inst =>
      by_cases hport : "portQr" ∈ inst.ports <;>
        simp [embed, World.fresh, World.record, hnode, hemb, subscribe, hport]

theorem emitAll_trace_extends (h : Host) (port : String) (recs : List QRRequest) (w : World) :
    ∃ ext, (emitAll h port recs w).trace = w.trace ++ ext := by
  have hdisp : ∀ (rec : QRRequest) (subs : List (String × Callback)) (w : World),
      ∃ ext, (subs.foldl (dispatch h port rec) w).trace = w.trace ++ ext := by
    intro rec subs
    induction subs with
    | nil => exact fun w => ⟨[], by simp⟩
    | cons sub subs ih =>
      intro w
      simp only [List.foldl_cons]
      obtain ⟨ext, hext⟩ := ih (dispatch h port rec w sub)
      have hstep : ∃ ext', (dispatch h port rec w sub).trace = w.trace ++ ext' := by
        unfold dispatch
        by_cases hp : sub.1 = port
        · simp only [hp, if_true]
          cases sub with
          | mk p cb =>
            cases cb
            have htr := displayQR_trace h rec w
            simp only [invoke]
            cases hres : displayQR h rec w with
            | mk w' r =>
              rw [hres] at htr
              cases r <;> exact ⟨_, htr⟩
        · simp only [hp, if_false]
          exact ⟨[], by simp⟩
      obtain ⟨ext', hext'⟩ := hstep
      exact ⟨ext' ++ ext, by rw [hext, hext', List.append_assoc]⟩
  induction recs generalizing w with
  | nil => exact ⟨[], by simp [emitAll]⟩
  | cons rec recs ih =>
    simp only [emitAll, List.foldl_cons] at ih ⊢
    obtain ⟨ext, hext⟩ := ih (emit h port rec w)
    obtain ⟨ext', hext'⟩ := hdisp rec w.subscriptions w
    exact ⟨ext' ++ ext, by rw [hext, emit, hext', List.append_assoc]⟩

/-! ## Claims about `displayQR` -/

/-- C1 as amended: when `rec.id` is the identifier of some element of the
document, one call of `displayQR(rec)` makes exactly one call of the QR
constructor; its target is the element found by looking up `rec.id` (the first
one carrying that identifier), its data is `rec.content` as received, and the
document afterwards is the one that constructor call left.  What the call
renders into the target is the constructor's doing. -/
theorem displayQR_constructs_once (h : Host) (rec : QRRequest) (w : World)
    (hid : rec.id ≠ "") (hex : ∃ e ∈ w.document, e.id = rec.id) :
    ∃ t e, findId w.document rec.id = some t ∧ w.document[t]? = some e ∧ e.id = rec.id ∧
      (displayQR h rec w).1.trace = w.trace ++
        [Event.logged "DEBUG100", Event.lookup rec.id (some t),
          Event.qrConstructed (some t) rec.content] ∧
      qrCalls (displayQR h rec w).1.trace = qrCalls w.trace ++ [(some t, rec.content)] ∧
      (displayQR h rec w).1.document = (h.newQRCode (some t) rec.content w.document).1 ∧
      (displayQR h rec w).2 = (h.newQRCode (some t) rec.content w.document).2 := by
  obtain ⟨t, ht⟩ := findId_isSome_of_mem hid hex
  obtain ⟨e, he, heq, _⟩ := findId_eq_some ht
  refine ⟨t, e, ht, he, heq, ?_, ?_, ?_, ?_⟩
  · rw [displayQR_trace, ht]
  · rw [displayQR_trace, ht]
    simp [qrCalls, List.filterMap_append]
  · rw [displayQR_document, ht]
  · rw [displayQR_error, ht]

/-- C1 as amended, at the end-to-end scenario: the request for `qr-box` on the
example page. -/
theorem displayQR_constructs_once_witness :
    ("qr-box" ≠ "" ∧ ∃ e ∈ exampleDocument, e.id = "qr-box") ∧
    ∃ t e, findId exampleDocument "qr-box" = some t ∧ exampleDocument[t]? = some e ∧
      e.id = "qr-box" ∧
      (displayQR exampleHost ⟨"qr-box", "https://example.com"⟩
          (World.fresh exampleDocument)).1.trace = [] ++
        [Event.logged "DEBUG100", Event.lookup "qr-box" (some t),
          Event.qrConstructed (some t) "https://example.com"] ∧
      qrCalls (displayQR exampleHost ⟨"qr-box", "https://example.com"⟩
          (World.fresh exampleDocument)).1.trace = qrCalls [] ++
        [(some t, "https://example.com")] ∧
      (displayQR exampleHost ⟨"qr-box", "https://example.com"⟩
          (World.fresh exampleDocument)).1.document =
        (exampleHost.newQRCode (some t) "https://example.com" exampleDocument).1 ∧
      (displayQR exampleHost ⟨"qr-box", "https://example.com"⟩
          (World.fresh exampleDocument)).2 =
        (exampleHost.newQRCode (some t) "https://example.com" exampleDocument).2 :=
  ⟨⟨by decide, ⟨"qr-box", ""⟩, by simp [exampleDocument], rfl⟩,
    displayQR_constructs_once exampleHost ⟨"qr-box", "https://example.com"⟩
      (World.fresh exampleDocument) (by decide)
      ⟨⟨"qr-box", ""⟩, by simp [exampleDocument, World.fresh], rfl⟩⟩

/-- C1 as stated fails: on a page whose box `qr-box` already holds `old`, with a
constructor that draws after what its element holds, `displayQR` makes its one
constructor call on the box with the data as received, and yet the box is not
replaced by a rendering of the data: for the data `x` it still starts with
`old`, and for the empty data it holds `old` and nothing else, exactly as
before. -/
theorem displayQR_content_not_replaced :
    findId [⟨"qr-box", "old"⟩] "qr-box" = some 0 ∧
      qrCalls (displayQR appendingHost ⟨"qr-box", "x"⟩
        (World.fresh [⟨"qr-box", "old"⟩])).1.trace = [(some 0, "x")] ∧
      (displayQR appendingHost ⟨"qr-box", "x"⟩ (World.fresh [⟨"qr-box", "old"⟩])).1.document =
        [⟨"qr-box", "oldqr:x"⟩] ∧
      qrCalls (displayQR appendingHost ⟨"qr-box", ""⟩
        (World.fresh [⟨"qr-box", "old"⟩])).1.trace = [(some 0, "")] ∧
      (displayQR appendingHost ⟨"qr-box", ""⟩ (World.fresh [⟨"qr-box", "old"⟩])).1.document =
        [⟨"qr-box", "old"⟩] := by
  refine ⟨by decide, by decide, by decide, by decide, by decide⟩

/-- C2: when no element of the document has identifier `rec.id`, `displayQR(rec)`
still looks the identifier up and still calls the QR constructor exactly once,
with no target and with `rec.content`; what the call throws (or that it throws
nothing) is exactly what the constructor threw, and the document is the one the
constructor left. -/
theorem displayQR_missing_target (h : Host) (rec : QRRequest) (w : World)
    (habsent : ∀ e ∈ w.document, e.id ≠ rec.id) :
    (displayQR h rec w).1.trace = w.trace ++
        [Event.logged "DEBUG100", Event.lookup rec.id none,
          Event.qrConstructed none rec.content] ∧
      qrCalls (displayQR h rec w).1.trace = qrCalls w.trace ++ [(none, rec.content)] ∧
      (displayQR h rec w).2 = (h.newQRCode none rec.content w.document).2 ∧
      (displayQR h rec w).1.document = (h.newQRCode none rec.content w.document).1 := by
  have hnone : findId w.document rec.id = none := findId_of_absent habsent
  refine ⟨?_, ?_, ?_, ?_⟩
  · rw [displayQR_trace, hnone]
  · rw [displayQR_trace, hnone]
    simp [qrCalls, List.filterMap_append]
  · rw [displayQR_error, hnone]
  · rw [displayQR_document, hnone]

/-- C2 at the missing-target scenario of the specification. -/
theorem displayQR_missing_target_witness :
    (∀ e ∈ exampleDocument, e.id ≠ "does-not-exist") ∧
    (displayQR exampleHost ⟨"does-not-exist", "hello"⟩ (World.fresh exampleDocument)).1.trace =
        [] ++ [Event.logged "DEBUG100", Event.lookup "does-not-exist" none,
          Event.qrConstructed none "hello"] ∧
      qrCalls (displayQR exampleHost ⟨"does-not-exist", "hello"⟩
          (World.fresh exampleDocument)).1.trace = qrCalls [] ++ [(none, "hello")] ∧
      (displayQR exampleHost ⟨"does-not-exist", "hello"⟩ (World.fresh exampleDocument)).2 =
        (exampleHost.newQRCode none "hello" exampleDocument).2 ∧
      (displayQR exampleHost ⟨"does-not-exist", "hello"⟩
          (World.fresh exampleDocument)).1.document =
        (exampleHost.newQRCode none "hello" exampleDocument).1 :=
  ⟨by simp [exampleDocument],
    displayQR_missing_target exampleHost ⟨"does-not-exist", "hello"⟩
      (World.fresh exampleDocument) (by simp [exampleDocument, World.fresh])⟩

/-- C3 as amended: `displayQR(rec)` writes to no element itself and hands the QR
constructor no element other than the one identified by `rec.id`: the target of
its single constructor call is nothing (when `rec.id` is empty or no element
carries it) or an element whose identifier is `rec.id`, and the document after
the call is exactly the document that constructor call left, element by
element. -/
theorem displayQR_frame (h : Host) (rec : QRRequest) (w : World) :
    ((findId w.document rec.id = none ∧ (rec.id = "" ∨ ∀ e ∈ w.document, e.id ≠ rec.id)) ∨
        ∃ t e, findId w.document rec.id = some t ∧ w.document[t]? = some e ∧
          e.id = rec.id) ∧
      qrCalls (displayQR h rec w).1.trace =
        qrCalls w.trace ++ [(findId w.document rec.id, rec.content)] ∧
      (displayQR h rec w).1.document =
        (h.newQRCode (findId w.document rec.id) rec.content w.document).1 ∧
      ∀ i : Handle, (displayQR h rec w).1.document[i]? =
        (h.newQRCode (findId w.document rec.id) rec.content w.document).1[i]? := by
  refine ⟨?_, ?_, displayQR_document h rec w, ?_⟩
  · cases hf : findId w.document rec.id with
    | none => exact Or.inl ⟨rfl, findId_eq_none.mp hf⟩
    | some t =>
      obtain ⟨e, he, heq, _⟩ := findId_eq_some hf
      exact Or.inr ⟨t, e, rfl, he, heq⟩
  · rw [displayQR_trace]
    simp [qrCalls, List.filterMap_append]
  · intro i
    rw [displayQR_document]

/-- C3 as stated fails.  On a page whose box sits inside the container, the
request for `qr-box` changes what is rendered inside `main`, an element whose
identifier is not `rec.id`.  And when no element carries `rec.id`, a constructor
that falls back to the first element of the page changes `main` as well. -/
theorem displayQR_changes_other_element :
    (nestedDocument[0]? = some ⟨"main", "qr-box[]"⟩ ∧ "main" ≠ "qr-box" ∧
        (displayQR nestingHost ⟨"qr-box", "hello"⟩ (World.fresh nestedDocument)).1.document[0]? =
          some ⟨"main", "qr-box[qr:hello]"⟩) ∧
      ((∀ e ∈ exampleDocument, e.id ≠ "does-not-exist") ∧
        exampleDocument[0]? = some ⟨"main", ""⟩ ∧
        (displayQR fallbackHost ⟨"does-not-exist", "hello"⟩
          (World.fresh exampleDocument)).1.document[0]? = some ⟨"main", "qr:hello"⟩) := by
  refine ⟨⟨by decide, by decide, by decide⟩, by decide, by decide, by decide⟩

/-- C4: every call of `displayQR` adds exactly one line to the log, the literal
`DEBUG100` whatever the request, and that line is written before the lookup and
before the QR constructor is called, whatever the constructor then does. -/
theorem displayQR_logs_marker (h : Host) (rec : QRRequest) (w : World) :
    console (displayQR h rec w).1.trace = console w.trace ++ ["DEBUG100"] ∧
      ∃ target, (displayQR h rec w).1.trace = w.trace ++
        Event.logged "DEBUG100" ::
          [Event.lookup rec.id target, Event.qrConstructed target rec.content] := by
  refine ⟨?_, findId w.document rec.id, displayQR_trace h rec w⟩
  rw [displayQR_trace]
  simp [console, List.filterMap_append]

/-! ## Claims about the bootstrap and the port -/

/-- C5: after a bootstrap that completed, any finite sequence of requests emitted
on `portQr` runs `displayQR` once per request, in emission order: the trace
grows by one block (log line, lookup of `rec.id`, constructor call on the
result of that lookup with `rec.content`) per request, as many blocks as
requests and in the same order, and the constructor calls of the whole run are
the requests' contents in emission order, each with the result of looking up
that request's `id`. -/
theorem emissions_rendered_in_order (h : Host) (doc : Document) (w : World)
    (hboot : main h (World.fresh doc) = (w, none)) (recs : List QRRequest) :
    ∃ targets : List (Option Handle), targets.length = recs.length ∧
      (emitAll h "portQr" recs w).trace =
        w.trace ++ (List.zipWith invocationEvents recs targets).flatten ∧
      qrCalls (emitAll h "portQr" recs w).trace =
        List.zipWith (fun (rec : QRRequest) (t : Option Handle) => (t, rec.content))
          recs targets := by
  obtain ⟨inst, _, _, _, hsubs, _, _, htrace⟩ := main_ok hboot
  obtain ⟨targets, hlen, htr⟩ := emitAll_single h recs w hsubs
  refine ⟨targets, hlen, htr, ?_⟩
  rw [htr]
  have hsplit : qrCalls (w.trace ++ (List.zipWith invocationEvents recs targets).flatten) =
      qrCalls w.trace ++ qrCalls (List.zipWith invocationEvents recs targets).flatten := by
    simp [qrCalls, List.filterMap_append]
  rw [hsplit, qrCalls_invocations, htrace]
  simp [qrCalls]

/-- C5 on the example page: two requests, the second for a missing element. -/
theorem emissions_rendered_in_order_witness :
    main exampleHost (World.fresh exampleDocument) = (exampleMounted, none) ∧
    ∃ targets : List (Option Handle),
      targets.length =
        [(⟨"qr-box", "https://example.com"⟩ : QRRequest), ⟨"does-not-exist", "hello"⟩].length ∧
      (emitAll exampleHost "portQr"
          [⟨"qr-box", "https://example.com"⟩, ⟨"does-not-exist", "hello"⟩]
          exampleMounted).trace =
        exampleMounted.trace ++ (List.zipWith invocationEvents
          [⟨"qr-box", "https://example.com"⟩, ⟨"does-not-exist", "hello"⟩] targets).flatten ∧
      qrCalls (emitAll exampleHost "portQr"
          [⟨"qr-box", "https://example.com"⟩, ⟨"does-not-exist", "hello"⟩]
          exampleMounted).trace =
        List.zipWith (fun (rec : QRRequest) (t : Option Handle) => (t, rec.content))
          [⟨"qr-box", "https://example.com"⟩, ⟨"does-not-exist", "hello"⟩] targets :=
  ⟨rfl, emissions_rendered_in_order exampleHost exampleDocument exampleMounted rfl
    [⟨"qr-box", "https://example.com"⟩, ⟨"does-not-exist", "hello"⟩]⟩

/-- C6: a run of the script that completes has made exactly these calls, in this
order: the three `require`s, one lookup of `main`, one call of the embed factory
on the result of that lookup, one `subscribe` of `displayQR` on `portQr`.  The
instance bound to `app` is the one the factory returned, it is the instance
subscribed to, and `displayQR` on `portQr` is the only subscription. -/
theorem bootstrap_mounts_and_subscribes_once (h : Host) (doc : Document) (w : World)
    (hrun : main h (World.fresh doc) = (w, none)) :
    ∃ inst, (embed h (findId doc "main") (World.fresh doc)).2 = .ok inst ∧
      w.app = some inst ∧
      "portQr" ∈ inst.ports ∧
      w.subscriptions = [("portQr", Callback.displayQR)] ∧
      w.trace = [Event.loaded "./css/index.scss", Event.loaded "script!qrcodejs",
        Event.loaded "../src/Main", Event.lookup "main" (findId doc "main"),
        Event.embedCall (findId doc "main"), Event.subscribed "portQr" Callback.displayQR] := by
  obtain ⟨inst, hemb, hport, happ, hsubs, _, _, htrace⟩ := main_ok hrun
  exact ⟨inst, hemb, happ, hport, hsubs, htrace⟩

/-- C6 on the example page. -/
theorem bootstrap_mounts_and_subscribes_once_witness :
    main exampleHost (World.fresh exampleDocument) = (exampleMounted, none) ∧
    ∃ inst, (embed exampleHost (findId exampleDocument "main")
        (World.fresh exampleDocument)).2 = .ok inst ∧
      exampleMounted.app = some inst ∧
      "portQr" ∈ inst.ports ∧
      exampleMounted.subscriptions = [("portQr", Callback.displayQR)] ∧
      exampleMounted.trace = [Event.loaded "./css/index.scss", Event.loaded "script!qrcodejs",
        Event.loaded "../src/Main", Event.lookup "main" (findId exampleDocument "main"),
        Event.embedCall (findId exampleDocument "main"),
        Event.subscribed "portQr" Callback.displayQR] :=
  ⟨rfl, bootstrap_mounts_and_subscribes_once exampleHost exampleDocument exampleMounted rfl⟩

/-- C7: when the three modules load and the document has no element `main`, the
lookup gives nothing, the script hands that to the embed factory as it is, the
factory fails, and the run ends there with the factory's exception: `app` is not
bound, nothing is subscribed, and no later emission on any port runs
`displayQR` or changes anything. -/
theorem bootstrap_without_container (h : Host) (doc : Document)
    (hcss : h.load "./css/index.scss" = none) (hqr : h.load "script!qrcodejs" = none)
    (helm : h.load "../src/Main" = none) (habsent : ∀ e ∈ doc, e.id ≠ "main") :
    findId doc "main" = none ∧
      main h (World.fresh doc) =
        ({ document := doc, app := none, subscriptions := [],
           trace := [Event.loaded "./css/index.scss", Event.loaded "script!qrcodejs",
             Event.loaded "../src/Main", Event.lookup "main" none, Event.embedCall none],
           uncaught := [] }, some h.mountError) ∧
      ∀ (port : String) (recs : List QRRequest),
        emitAll h port recs (main h (World.fresh doc)).1 = (main h (World.fresh doc)).1 := by
  have hnone : findId doc "main" = none := findId_of_absent habsent
  have hmain : main h (World.fresh doc) =
      ({ document := doc, app := none, subscriptions := [],
         trace := [Event.loaded "./css/index.scss", Event.loaded "script!qrcodejs",
           Event.loaded "../src/Main", Event.lookup "main" none, Event.embedCall none],
         uncaught := [] }, some h.mountError) := by
    simp [main, require, hcss, hqr, helm, getElementById, embed, World.fresh, World.record,
      hnone]
  refine ⟨hnone, hmain, ?_⟩
  intro port recs
  rw [hmain]
  exact emitAll_no_subscriber h port recs _ rfl

/-- C7 on a page without the container. -/
theorem bootstrap_without_container_witness :
    (exampleHost.load "./css/index.scss" = none ∧ exampleHost.load "script!qrcodejs" = none ∧
      exampleHost.load "../src/Main" = none ∧
      ∀ e ∈ [(⟨"qr-box", ""⟩ : Element)], e.id ≠ "main") ∧
    (findId [⟨"qr-box", ""⟩] "main" = none ∧
      main exampleHost (World.fresh [⟨"qr-box", ""⟩]) =
        ({ document := [⟨"qr-box", ""⟩], app := none, subscriptions := [],
           trace := [Event.loaded "./css/index.scss", Event.loaded "script!qrcodejs",
             Event.loaded "../src/Main", Event.lookup "main" none, Event.embedCall none],
           uncaught := [] }, some exampleHost.mountError) ∧
      ∀ (port : String) (recs : List QRRequest),
        emitAll exampleHost port recs (main exampleHost (World.fresh [⟨"qr-box", ""⟩])).1 =
          (main exampleHost (World.fresh [⟨"qr-box", ""⟩])).1) :=
  ⟨⟨rfl, rfl, rfl, by simp⟩,
    bootstrap_without_container exampleHost [⟨"qr-box", ""⟩] rfl rfl rfl (by simp)⟩

/-- C8: in the trace of any run of the script followed by any emissions on a
port, whatever the collaborators do, every event other than the two asset loads
(the load of the application module, the lookup of `main`, the mount, the
subscription, and each log line, lookup and constructor call of `displayQR`)
comes after the load of the stylesheet and the load of the QR library, which
are the first two events, in that order. -/
theorem assets_loaded_before_use (h : Host) (doc : Document) (port : String)
    (recs : List QRRequest) (pre post : List Event) (ev : Event)
    (hsplit : (emitAll h port recs (main h (World.fresh doc)).1).trace = pre ++ ev :: post)
    (hcss : ev ≠ Event.loaded "./css/index.scss")
    (hqr : ev ≠ Event.loaded "script!qrcodejs") :
    ∃ mid, pre =
      Event.loaded "./css/index.scss" :: Event.loaded "script!qrcodejs" :: mid := by
  have hshape : ∀ tr : List Event,
      (tr = [] ∨ tr = [Event.loaded "./css/index.scss"] ∨
        ∃ rest, tr = Event.loaded "./css/index.scss" :: Event.loaded "script!qrcodejs" :: rest) →
      tr = pre ++ ev :: post →
      ∃ mid, pre =
        Event.loaded "./css/index.scss" :: Event.loaded "script!qrcodejs" :: mid := by
    intro tr htr heq
    rcases htr with hnil | hone | ⟨rest, hrest⟩
    · rw [hnil] at heq
      exact absurd heq.symm (by simp)
    · rw [hone] at heq
      cases pre with
      | nil =>
        simp only [List.nil_append, List.cons.injEq] at heq
        exact absurd heq.1.symm hcss
      | cons x pre => simp at heq
    · rw [hrest] at heq
      cases pre with
      | nil =>
        simp only [List.nil_append, List.cons.injEq] at heq
        exact absurd heq.1.symm hcss
      | cons x pre =>
        cases pre with
        | nil =>
          simp only [List.cons_append, List.nil_append, List.cons.injEq] at heq
          exact absurd heq.2.1.symm hqr
        | cons y pre =>
          simp only [List.cons_append, List.cons.injEq] at heq
          exact ⟨pre, by rw [← heq.1, ← heq.2.1]⟩
  apply hshape _ _ hsplit
  rcases main_fail_or_loaded h doc with ⟨hsubs, htr⟩ | ⟨rest, hrest⟩
  · rw [emitAll_no_subscriber h port recs _ hsubs]
    rcases htr with hnil | hone
    · exact Or.inl hnil
    · exact Or.inr (Or.inl hone)
  · obtain ⟨ext, hext⟩ := emitAll_trace_extends h port recs (main h (World.fresh doc)).1
    exact Or.inr (Or.inr ⟨rest ++ ext, by rw [hext, hrest]; rfl⟩)

/-- C8 on the example page: the mount and one rendered request. -/
theorem assets_loaded_before_use_witness :
    ((emitAll exampleHost "portQr" [⟨"qr-box", "https://example.com"⟩]
        (main exampleHost (World.fresh exampleDocument)).1).trace =
      [Event.loaded "./css/index.scss", Event.loaded "script!qrcodejs",
        Event.loaded "../src/Main", Event.lookup "main" (some 0), Event.embedCall (some 0),
        Event.subscribed "portQr" Callback.displayQR, Event.logged "DEBUG100",
        Event.lookup "qr-box" (some 1)] ++
        Event.qrConstructed (some 1) "https://example.com" :: []) ∧
    ∃ mid, [Event.loaded "./css/index.scss", Event.loaded "script!qrcodejs",
        Event.loaded "../src/Main", Event.lookup "main" (some 0), Event.embedCall (some 0),
        Event.subscribed "portQr" Callback.displayQR, Event.logged "DEBUG100",
        Event.lookup "qr-box" (some 1)] =
      Event.loaded "./css/index.scss" :: Event.loaded "script!qrcodejs" :: mid :=
  ⟨rfl, assets_loaded_before_use exampleHost exampleDocument "portQr"
    [⟨"qr-box", "https://example.com"⟩] _ [] (Event.qrConstructed (some 1) "https://example.com")
    rfl (by simp) (by simp)⟩

/-- C9: the page starts `Unmounted`; after a bootstrap that completed it is
`Mounted`, and after any number of later `displayQR` invocations (none
included), whatever each of them throws, it is still `Mounted`, `app` is still
the same instance, and the subscription of `displayQR` on `portQr` is still the
only one. -/
theorem mount_is_irreversible (h : Host) (doc : Document) (w : World)
    (hboot : main h (World.fresh doc) = (w, none)) (recs : List QRRequest) :
    (World.fresh doc).mountState = MountState.Unmounted ∧
      ∃ inst, w.app = some inst ∧ w.mountState = MountState.Mounted ∧
        w.subscriptions = [("portQr", Callback.displayQR)] ∧
        (recs.foldl (fun w rec => (displayQR h rec w).1) w).app = some inst ∧
        (recs.foldl (fun w rec => (displayQR h rec w).1) w).subscriptions =
          [("portQr", Callback.displayQR)] ∧
        (recs.foldl (fun w rec => (displayQR h rec w).1) w).mountState =
          MountState.Mounted := by
  obtain ⟨inst, _, _, happ, hsubs, _, _, _⟩ := main_ok hboot
  obtain ⟨hfa, hfs⟩ := displayQR_foldl_state h recs w
  refine ⟨rfl, inst, happ, ?_, hsubs, hfa.trans happ, hfs.trans hsubs, ?_⟩
  · simp [World.mountState, happ]
  · simp [World.mountState, hfa.trans happ]

/-- C9 on the example page: two invocations, the second on a missing element. -/
theorem mount_is_irreversible_witness :
    main exampleHost (World.fresh exampleDocument) = (exampleMounted, none) ∧
    ((World.fresh exampleDocument).mountState = MountState.Unmounted ∧
      ∃ inst, exampleMounted.app = some inst ∧
        exampleMounted.mountState = MountState.Mounted ∧
        exampleMounted.subscriptions = [("portQr", Callback.displayQR)] ∧
        (([⟨"qr-box", "a"⟩, ⟨"does-not-exist", "hello"⟩] : List QRRequest).foldl
          (fun w rec => (displayQR exampleHost rec w).1) exampleMounted).app = some inst ∧
        (([⟨"qr-box", "a"⟩, ⟨"does-not-exist", "hello"⟩] : List QRRequest).foldl
          (fun w rec => (displayQR exampleHost rec w).1) exampleMounted).subscriptions =
          [("portQr", Callback.displayQR)] ∧
        (([⟨"qr-box", "a"⟩, ⟨"does-not-exist", "hello"⟩] : List QRRequest).foldl
          (fun w rec => (displayQR exampleHost rec w).1) exampleMounted).mountState =
          MountState.Mounted) :=
  ⟨rfl, mount_is_irreversible exampleHost exampleDocument exampleMounted rfl
    [⟨"qr-box", "a"⟩, ⟨"does-not-exist", "hello"⟩]⟩

end LamassuAdmin
